import Mathlib

/-!
# k6 load-test and smoke-test scripts

A shallow embedding of `load-testing/k6-load-test.js` and
`load-testing/k6-smoke-test.js`.

* JavaScript values are the type `JsVal`. A finite number is the rational it
  denotes; the arithmetic of the scripts is binary64 arithmetic: a decimal
  literal such as `0.60` is `roundDouble 0.60`, the nearest double, and a product
  or sum is the exact result rounded to the nearest double, ties to even
  (`jsMul`, `jsAdd`).
* The host (k6 and the target system) is a record of oracles: the k-th result of
  `Math.random()`, the k-th result of `Date.now()`, the response to the k-th HTTP
  request, the `ToNumber` coercion of strings and objects, and whether the global
  `URLSearchParams`, which the load test uses without importing or declaring it,
  is defined.
* The script state is passed explicitly: the counters of consumed oracle
  results, the module-level `authTokens` object and the trace of effects
  (requests sent, metric submissions, checks, sleeps), oldest first.
  `console.log` output is not part of the trace.
-/

namespace K6

/-- A JavaScript number. -/
inductive JsNum where
  | fin (q : ℚ)
  | posInf
  | negInf
  | nan
  deriving DecidableEq

/-- A JavaScript value as the scripts see it: what `JSON.parse` builds, plus
`undefined`. -/
inductive JsVal where
  | undefined
  | null
  | bool (b : Bool)
  | num (n : JsNum)
  | str (s : String)
  | arr (xs : List JsVal)
  | obj (fields : List (String × JsVal))

/-- An uncaught JavaScript exception. -/
inductive JsError where
  | typeError
  | syntaxError
  | referenceError
  | error (message : String)
  deriving DecidableEq

/-- ToBoolean. -/
def truthy : JsVal → Bool
  | .undefined => false
  | .null => false
  | .bool b => b
  | .num (.fin q) => decide (q ≠ 0)
  | .num .nan => false
  | .num _ => true
  | .str s => decide (s ≠ "")
  | .arr _ => true
  | .obj _ => true

/-- The `length` of a string: its number of UTF-16 code units. -/
def utf16Length (s : String) : Nat :=
  (s.toList.map (fun c => if c.val.toNat < 65536 then 1 else 2)).sum

/-- Read of an own property of an object kept as an association list:
`undefined` when the key is absent. -/
def readProp {α : Type} (fields : List (String × α)) (k : String) : Option α :=
  fields.lookup k

/-- Assignment `o[k] = v` on an object kept as an association list: an existing
key keeps its place and takes the new value, a new key goes last. -/
def setProp {α : Type} : List (String × α) → String → α → List (String × α)
  | [], k, v => [(k, v)]
  | (k', v') :: rest, k, v =>
    if k' = k then (k, v) :: rest else (k', v') :: setProp rest k v

/-- Evaluation of an object literal: the property definitions are carried out
in source order, so a repeated key is an assignment to the property defined
before. -/
def objLit {α : Type} (defs : List (String × α)) : List (String × α) :=
  defs.foldl (fun acc kv => setProp acc kv.1 kv.2) []

/-- Member access `v.k`, for a key `k` that is neither an array index nor an
inherited member (every key the scripts read is of that kind): a TypeError on
`undefined` and `null`. -/
def getProp (v : JsVal) (k : String) : Except JsError JsVal :=
  match v with
  | .undefined => .error .typeError
  | .null => .error .typeError
  | .obj fields => .ok ((readProp fields k).getD .undefined)
  | .arr xs => .ok (if k = "length" then .num (.fin xs.length) else .undefined)
  | .str s => .ok (if k = "length" then .num (.fin (utf16Length s)) else .undefined)
  | .bool _ => .ok .undefined
  | .num _ => .ok .undefined

/-- Indexing `xs[i]` of an array by a number that is an integer: `undefined`
(here `none`) outside the bounds. -/
def jsIndex {α : Type} (xs : List α) (i : ℤ) : Option α :=
  if i < 0 then none else xs.get? i.toNat

/-! ### binary64 arithmetic -/

/-- The exponent of the binade of `x`: the `e` with `2^e ≤ |x| < 2^(e+1)`, and
`-1022`, the exponent of the subnormal numbers, below `2^(-1022)`. -/
@[irreducible]
def binade (x : ℚ) : ℤ := max (Int.log 2 |x|) (-1022)

/-- The spacing of the doubles in the binade of `x`: 53 significant bits. -/
def ulp (x : ℚ) : ℚ := (2 : ℚ) ^ (binade x - 52)

/-- The nearest integer, a tie going to the even one. -/
def roundHalfEven (q : ℚ) : ℤ :=
  if q - ⌊q⌋ < 1 / 2 then ⌊q⌋
  else if 1 / 2 < q - ⌊q⌋ then ⌊q⌋ + 1
  else if ⌊q⌋ % 2 = 0 then ⌊q⌋ else ⌊q⌋ + 1

/-- The double nearest to `x`, ties to even. Overflow to an infinity (a result
of magnitude `2^1024` or more) is left out: the scripts multiply a draw below 1
by the length of an array and add small constants. -/
def roundDouble (x : ℚ) : ℚ := (roundHalfEven (x / ulp x) : ℚ) * ulp x

/-- The rational `x` is a double. -/
def isDouble (x : ℚ) : Prop := roundDouble x = x

instance (x : ℚ) : Decidable (isDouble x) := by unfold isDouble; infer_instance

/-- The product `a * b` of two doubles. -/
def jsMul (a b : ℚ) : ℚ := roundDouble (a * b)

/-- The sum `a + b` of two doubles. -/
def jsAdd (a b : ℚ) : ℚ := roundDouble (a + b)

/-- The expression `xs[Math.floor(u * xs.length)]`. -/
@[irreducible]
def pick {α : Type} (xs : List α) (u : ℚ) : Option α :=
  jsIndex xs ⌊jsMul u (xs.length : ℚ)⌋

/-- The comparison `n > 0` on numbers. -/
def JsNum.gtZero : JsNum → Bool
  | .fin q => decide (0 < q)
  | .posInf => true
  | .negInf => false
  | .nan => false

/-- An HTTP response as the scripts read it: `status`, and `json`, the outcome of
`JSON.parse(r.body)` (`none` when it throws a SyntaxError). -/
structure Response where
  status : ℤ
  json : Option JsVal

/-- The object `params` of `browseProducts`; a property that is `undefined` in
the script is `none`. -/
structure SearchParams where
  q : Option String
  category : Option String
  page : ℤ
  size : ℕ
  sort : Option String

/-- The requests the scripts send. Query parameters and path segments are kept
as values. -/
inductive Request where
  | health
  | searchProducts (params : SearchParams)
  | productDetail (id : JsVal)
  | login (email password : String)
  | adminMetrics (bearer : JsVal)
  | seedStatus (bearer : JsVal)

/-- The scenario functions of the load test, in the order of the dispatch. -/
inductive Scenario where
  | browseProducts
  | viewProductDetail
  | authenticateUser
  | adminOperations
  deriving DecidableEq, Repr

/-- The custom metrics declared by the load test. -/
inductive Metric where
  | errorRate
  | productSearchDuration
  | authDuration
  | productDetailDuration
  deriving DecidableEq, Repr

/-- An observable effect of a script. -/
inductive Event where
  | request (r : Request)
  | rate (m : Metric) (value : Bool)
  | trend (m : Metric) (value : ℤ)
  | check (name : String) (passed : Bool)
  | sleep (seconds : ℚ)

/-- The oracles of a run: `random k` is the k-th result of `Math.random()`,
`now k` the k-th result of `Date.now()`, `respond k` the response to the k-th
request, `coerce` the ToNumber conversion of strings, arrays and objects, and
`urlSearchParams` tells whether the host defines the global `URLSearchParams`. -/
structure Host where
  random : ℕ → ℚ
  now : ℕ → ℤ
  respond : ℕ → Response
  coerce : JsVal → JsNum
  urlSearchParams : Bool

/-- The state of one script instance. -/
structure State where
  draws : ℕ
  clock : ℕ
  sent : ℕ
  authTokens : List (String × JsVal)
  trace : List Event

/-- Math.random(). -/
def mathRandom (h : Host) (s : State) : ℚ × State :=
  (h.random s.draws, { s with draws := s.draws + 1 })

/-- Date.now(). -/
def dateNow (h : Host) (s : State) : ℤ × State :=
  (h.now s.clock, { s with clock := s.clock + 1 })

/-- Append one effect to the trace. -/
def emit (s : State) (e : Event) : State :=
  { s with trace := s.trace ++ [e] }

/-- The calls `http.get` and `http.post`: the request is sent and the response
of the target system comes back. -/
def httpSend (h : Host) (s : State) (r : Request) : Response × State :=
  (h.respond s.sent, { s with sent := s.sent + 1, trace := s.trace ++ [.request r] })

/-- The k6 function `check(val, sets)`, given the value each check function
returned: every check is reported, the result is true when all passed. -/
def check (s : State) (results : List (String × JsVal)) : Bool × State :=
  (results.all (fun kv => truthy kv.2),
   { s with trace := s.trace ++ results.map (fun kv => .check kv.1 (truthy kv.2)) })

/-- JSON.parse(r.body). -/
def jsonParse (r : Response) : Except JsError JsVal :=
  match r.json with
  | some v => .ok v
  | none => .error .syntaxError

/-- ToNumber. -/
def toNumber (h : Host) : JsVal → JsNum
  | .undefined => .nan
  | .null => .fin 0
  | .bool b => .fin (if b then 1 else 0)
  | .num n => n
  | v => h.coerce v

/-- The statement `try { return e } catch (e) { return false }`. -/
def orFalse (e : Except JsError JsVal) : JsVal :=
  match e with
  | .ok v => v
  | .error _ => .bool false

/-- The check `(r) => r.status === 200`. -/
def statusIs200 (r : Response) : JsVal := .bool (decide (r.status = 200))

/-- The requests of a trace, in order. -/
def requests (t : List Event) : List Request :=
  t.filterMap fun e => match e with
    | .request r => some r
    | _ => none

/-- The observations a trace submitted to the rate metric `m`, in order. -/
def rateObservations (m : Metric) (t : List Event) : List Bool :=
  t.filterMap fun e => match e with
    | .rate m' b => if m' = m then some b else none
    | _ => none

/-- The samples a trace submitted to the trend metric `m`, in order. -/
def trendSamples (m : Metric) (t : List Event) : List ℤ :=
  t.filterMap fun e => match e with
    | .trend m' v => if m' = m then some v else none
    | _ => none

/-- A host whose target system answers every request with `r`, whose random
draws are all `u`, whose clock advances by one per reading and which defines
`URLSearchParams`. -/
def constHost (u : ℚ) (r : Response) : Host :=
  { random := fun _ => u, now := fun k => k, respond := fun _ => r, coerce := fun _ => .nan,
    urlSearchParams := true }

/-- The host `constHost u r` without the global `URLSearchParams`: a runtime
that provides the ECMAScript globals and the modules the script imports. -/
def plainHost (u : ℚ) (r : Response) : Host :=
  { constHost u r with urlSearchParams := false }

/-- The state of a fresh script instance. -/
def freshState : State :=
  { draws := 0, clock := 0, sent := 0, authTokens := [], trace := [] }

end K6

/-! ## load-testing/k6-load-test.js -/

namespace LoadTest

open K6

/-- The property `thresholds` of the exported `options`, as the object literal
of the source defines it, a list of property definitions in source order. -/
def thresholdDefs : List (String × List String) :=
  [("error_rate", ["rate<0.01"]),
   ("http_req_duration", ["p(95)<500"]),
   ("http_req_duration", ["avg<200"])]

/-- The object `options.thresholds`. -/
def thresholds : List (String × List String) := objLit thresholdDefs

/-- A credential pair of `testUsers`. -/
structure User where
  email : String
  password : String
  deriving DecidableEq, Repr

def testUsers : List User :=
  [⟨"test1@ozdilek.com", "test123"⟩, ⟨"test2@ozdilek.com", "test123"⟩,
   ⟨"test3@ozdilek.com", "test123"⟩, ⟨"test4@ozdilek.com", "test123"⟩,
   ⟨"test5@ozdilek.com", "test123"⟩, ⟨"test6@ozdilek.com", "test123"⟩,
   ⟨"test7@ozdilek.com", "test123"⟩, ⟨"test8@ozdilek.com", "test123"⟩,
   ⟨"test9@ozdilek.com", "test123"⟩, ⟨"test10@ozdilek.com", "test123"⟩]

def searchQueries : List String :=
  ["yatak", "çift kişilik", "nevresim", "yastık", "koltuk",
   "tv sehpası", "kahve masası", "tencere", "tava", "mikrodalga",
   "gömlek", "pantolon", "elbise", "kazak", "mont", "ayakkabı",
   "telefon", "bilgisayar", "kulaklık", "kamera", "tablet"]

def categories : List String :=
  ["yatak-odasi", "oturma-odasi", "mutfak", "banyo", "bahce",
   "kadin", "erkek", "cocuk", "ayakkabi", "canta",
   "telefon", "bilgisayar", "tv-ses", "kucuk-ev-aletleri"]

/-- The array literal of sort keys in `browseProducts`. -/
def sortKeys : List String := ["price-asc", "price-desc", "name-asc", "newest"]

def adminEmail : String := "admin@ozdilek.com"

/-- The check function 'product search has products'. -/
def searchHasProducts (h : Host) (r : Response) : JsVal :=
  orFalse (do
    let data ← jsonParse r
    let content ← getProp data "content"
    if truthy content then do
      let len ← getProp content "length"
      pure (.bool (toNumber h len).gtZero)
    else
      pure content)

/-- The check function 'product detail has product data'. -/
def detailHasProductData (r : Response) : JsVal :=
  orFalse (do
    let product ← jsonParse r
    let id ← getProp product "id"
    if truthy id then do
      let title ← getProp product "title"
      if truthy title then getProp product "price" else pure title
    else
      pure id)

/-- The check function 'login returns token'. -/
def loginReturnsToken (r : Response) : JsVal :=
  orFalse (do
    let authData ← jsonParse r
    let accessToken ← getProp authData "accessToken"
    if truthy accessToken then getProp authData "refreshToken" else pure accessToken)

/-- The first statements of `browseProducts`, up to the object `params`
(lines 113 to 123). -/
def drawSearchParams (h : Host) (s : State) : SearchParams × State :=
  let (u₁, s) := mathRandom h s
  let searchQuery := pick searchQueries u₁
  let (u₂, s) := mathRandom h s
  let category := pick categories u₂
  let (u₃, s) := mathRandom h s
  let page := ⌊jsMul u₃ 10⌋
  let (u₄, s) := mathRandom h s
  let sort := jsIndex sortKeys ⌊jsMul u₄ 4⌋
  ({ q := searchQuery, category := category, page := page, size := 20, sort := sort }, s)

/-- The function `browseProducts`. The expression `new URLSearchParams(params)`
is a ReferenceError on a host that does not define `URLSearchParams`; on a host
that does, the query string it builds is kept as the parameters of the
request. -/
def browseProducts (h : Host) (s : State) : Except JsError Unit × State :=
  let (params, s) := drawSearchParams h s
  if !h.urlSearchParams then (.error .referenceError, s) else
  let (startTime, s) := dateNow h s
  let (response, s) := httpSend h s (.searchProducts params)
  let (endTime, s) := dateNow h s
  let duration := endTime - startTime
  let s := emit s (.trend .productSearchDuration duration)
  let (success, s) := check s
    [("product search status is 200", statusIs200 response),
     ("product search has products", searchHasProducts h response)]
  let s := emit s (.rate .errorRate (!success))
  (.ok (), s)

/-- The function `viewProductDetail`. -/
def viewProductDetail (h : Host) (s : State) (productIds : List JsVal) :
    Except JsError Unit × State :=
  if productIds.length = 0 then (.ok (), s) else
  let (u, s) := mathRandom h s
  let productId := (pick productIds u).getD .undefined
  let (startTime, s) := dateNow h s
  let (response, s) := httpSend h s (.productDetail productId)
  let (endTime, s) := dateNow h s
  let duration := endTime - startTime
  let s := emit s (.trend .productDetailDuration duration)
  let (success, s) := check s
    [("product detail status is 200", statusIs200 response),
     ("product detail has product data", detailHasProductData response)]
  let s := emit s (.rate .errorRate (!success))
  (.ok (), s)

/-- The function `authenticateUser`. Reading `user.email` of an `undefined`
user is a TypeError. -/
def authenticateUser (h : Host) (s : State) : Except JsError Unit × State :=
  let (u, s) := mathRandom h s
  let (startTime, s) := dateNow h s
  match pick testUsers u with
  | none => (.error .typeError, s)
  | some user =>
    let (response, s) := httpSend h s (.login user.email user.password)
    let (endTime, s) := dateNow h s
    let duration := endTime - startTime
    let s := emit s (.trend .authDuration duration)
    let (success, s) := check s
      [("login status is 200", statusIs200 response),
       ("login returns token", loginReturnsToken response)]
    let s := emit s (.rate .errorRate (!success))
    if success then
      match jsonParse response >>= fun authData => getProp authData "accessToken" with
      | .ok accessToken =>
        (.ok (), { s with authTokens := setProp s.authTokens user.email accessToken })
      | .error _ => (.ok (), s)
    else (.ok (), s)

/-- The function `adminOperations`. The first part yields the admin token to
go on with, or `none` where the source returns early. The literal `0.5` is a
double. -/
def adminOperations (h : Host) (s : State) : Except JsError Unit × State :=
  let cached := (readProp s.authTokens adminEmail).getD .undefined
  let (adminToken, s) : Option JsVal × State :=
    if !truthy cached then
      let (loginResponse, s) := httpSend h s (.login adminEmail "admin123")
      if loginResponse.status = 200 then
        match jsonParse loginResponse >>= fun authData => getProp authData "accessToken" with
        | .ok accessToken =>
          (some accessToken, { s with authTokens := setProp s.authTokens adminEmail accessToken })
        | .error _ => (none, s)
      else (none, s)
    else (some cached, s)
  match adminToken with
  | none => (.ok (), s)
  | some adminToken =>
    let (operation, s) := mathRandom h s
    if operation < 0.5 then
      let (response, s) := httpSend h s (.adminMetrics adminToken)
      let (_, s) := check s [("admin metrics status is 200", statusIs200 response)]
      (.ok (), s)
    else
      let (response, s) := httpSend h s (.seedStatus adminToken)
      let (_, s) := check s [("seed status is 200", statusIs200 response)]
      (.ok (), s)

/-- The exported default function; `productIds` is `data.productIds`. An
exception of the scenario function ends the iteration before the sleep. -/
def defaultFunction (h : Host) (s : State) (productIds : List JsVal) :
    Except JsError Unit × State :=
  let (scenario, s) := mathRandom h s
  let (result, s) :=
    if scenario < roundDouble 0.60 then browseProducts h s
    else if scenario < roundDouble 0.85 then viewProductDetail h s productIds
    else if scenario < roundDouble 0.95 then authenticateUser h s
    else adminOperations h s
  match result with
  | .error e => (.error e, s)
  | .ok () =>
    let (u, s) := mathRandom h s
    (.ok (), emit s (.sleep (jsAdd (jsMul u 2) 1)))

/-! ### Predicates and inputs used by the properties -/

/-- The body of the response is a JSON object in which the fields `id`, `title`
and `price` are all present, whatever their values. -/
def hasRequiredFields (r : Response) : Bool :=
  match r.json with
  | some (.obj fields) =>
    (readProp fields "id").isSome && (readProp fields "title").isSome &&
      (readProp fields "price").isSome
  | _ => false

/-- The body of the response is a JSON object in which the fields `id`, `title`
and `price` all hold a truthy value (not `false`, `0`, the empty string or
`null`). -/
def hasTruthyRequiredFields (r : Response) : Bool :=
  match r.json with
  | some (.obj fields) =>
    truthy ((readProp fields "id").getD .undefined) &&
      truthy ((readProp fields "title").getD .undefined) &&
      truthy ((readProp fields "price").getD .undefined)
  | _ => false

/-- A product whose price is zero: every required field is present. -/
def freeProduct : Response :=
  { status := 200,
    json := some (.obj [("id", .num (.fin 1)), ("title", .str "Yatak"),
      ("price", .num (.fin 0))]) }

/-- The access token of a login response whose body is a JSON object carrying
both an `accessToken` and a `refreshToken` (each with a truthy value); `none`
for every other body. -/
def accessTokenOf (r : Response) : Option JsVal :=
  match r.json with
  | some (.obj fields) =>
    if truthy ((readProp fields "accessToken").getD .undefined) &&
        truthy ((readProp fields "refreshToken").getD .undefined)
    then some ((readProp fields "accessToken").getD .undefined)
    else none
  | _ => none

/-- A product detail response that passes the validation. -/
def pricedProduct : Response :=
  { status := 200,
    json := some (.obj [("id", .num (.fin 1)), ("title", .str "Yatak"),
      ("price", .num (.fin 1250))]) }

/-- A page of search results. -/
def productPage : Response :=
  { status := 200,
    json := some (.obj [("content", .arr [.obj [("id", .num (.fin 1))]])]) }

/-- A login response that carries both tokens. -/
def loginOk : Response :=
  { status := 200,
    json := some (.obj [("accessToken", .str "a1"), ("refreshToken", .str "r1")]) }

/-- A login response with status 200 whose body is a JSON object without an
`accessToken`. -/
def loginWithoutToken : Response :=
  { status := 200, json := some (.obj [("message", .str "ok")]) }

/-- The Scenario Mixer's rule in the words of the specification: go through the
scenarios in declaration order, accumulate their probabilities (`acc` is the sum
so far, a sum of doubles) and pick the first one whose cumulative probability
exceeds `u`. -/
def mixerChoose : List (Scenario × ℚ) → ℚ → ℚ → Option Scenario
  | [], _, _ => none
  | (sc, p) :: rest, acc, u =>
    if u < jsAdd acc p then some sc else mixerChoose rest (jsAdd acc p) u

/-- The scenarios and their probabilities, in declaration order. -/
def scenarioWeights : List (Scenario × ℚ) :=
  [(.browseProducts, roundDouble 0.60), (.viewProductDetail, roundDouble 0.25),
   (.authenticateUser, roundDouble 0.10), (.adminOperations, roundDouble 0.05)]

/-- The cumulative probabilities of the four scenarios, in declaration order. -/
def cumulativeTable : List (Scenario × ℚ) :=
  [(.browseProducts, roundDouble 0.60), (.viewProductDetail, roundDouble 0.85),
   (.authenticateUser, roundDouble 0.95), (.adminOperations, roundDouble 1.00)]

/-- The scenario function of each name, as the default function calls it. -/
def runScenario (sc : Scenario) (h : Host) (s : State) (productIds : List JsVal) :
    Except JsError Unit × State :=
  match sc with
  | .browseProducts => browseProducts h s
  | .viewProductDetail => viewProductDetail h s productIds
  | .authenticateUser => authenticateUser h s
  | .adminOperations => adminOperations h s

/-- The end of an iteration after the outcome `p` of a scenario function: an
exception goes on to the caller, a normal return is followed by the sleep of
`Math.random() * 2 + 1` seconds. -/
def thenSleep (h : Host) (p : Except JsError Unit × State) : Except JsError Unit × State :=
  match p.1 with
  | .error e => (.error e, p.2)
  | .ok () =>
    (.ok (), { p.2 with draws := p.2.draws + 1,
                        trace := p.2.trace ++ [.sleep (jsAdd (jsMul (h.random p.2.draws) 2) 1)] })

/-- The double written `0.8999999999999999`. -/
def nearNineTenths : ℚ := 8106479329266892 / 2 ^ 53

end LoadTest

/-! ## load-testing/k6-smoke-test.js -/

namespace SmokeTest

open K6

/-- The function `setup`: the thrown `Error`, or the returned object `{}` (its
list of properties). -/
def setup (h : Host) (s : State) : Except JsError (List (String × JsVal)) × State :=
  let (healthResponse, s) := httpSend h s .health
  if healthResponse.status ≠ 200 then
    (.error (.error "Application is not healthy"), s)
  else
    (.ok [], s)

end SmokeTest

/-! ## Properties of the JavaScript primitives -/

namespace K6

theorem truthy_bool (b : Bool) : truthy (.bool b) = b := rfl

/-! ### Rounding to a double -/

theorem roundHalfEven_le (q : ℚ) (j : ℤ) (h : q < j + 1 / 2) : roundHalfEven q ≤ j := by
  have hf : (⌊q⌋ : ℚ) ≤ q := Int.floor_le q
  have hfl : ⌊q⌋ ≤ j := by
    have : ((⌊q⌋ : ℤ) : ℚ) < (j : ℚ) + 1 := by linarith
    have : ⌊q⌋ < j + 1 := by exact_mod_cast this
    omega
  unfold roundHalfEven
  split_ifs with h1 h2 h3
  · exact hfl
  · have : ((⌊q⌋ : ℤ) : ℚ) < (j : ℚ) := by linarith
    have : ⌊q⌋ < j := by exact_mod_cast this
    omega
  · exact hfl
  · have : ((⌊q⌋ : ℤ) : ℚ) < (j : ℚ) := by linarith
    have : ⌊q⌋ < j := by exact_mod_cast this
    omega

theorem le_roundHalfEven (q : ℚ) (j : ℤ) (h : (j : ℚ) - 1 / 2 < q) : j ≤ roundHalfEven q := by
  have hf : q < (⌊q⌋ : ℚ) + 1 := Int.lt_floor_add_one q
  have hfl : j ≤ ⌊q⌋ + 1 := by
    have : (j : ℚ) < ((⌊q⌋ : ℤ) : ℚ) + 1 + 1 := by linarith
    have : j < ⌊q⌋ + 1 + 1 := by exact_mod_cast this
    omega
  unfold roundHalfEven
  split_ifs with h1 h2 h3
  · have : (j : ℚ) < ((⌊q⌋ : ℤ) : ℚ) + 1 := by linarith
    have : j < ⌊q⌋ + 1 := by exact_mod_cast this
    omega
  · exact hfl
  · have : (j : ℚ) < ((⌊q⌋ : ℤ) : ℚ) + 1 := by linarith
    have : j < ⌊q⌋ + 1 := by exact_mod_cast this
    omega
  · exact hfl

theorem roundHalfEven_eq (q : ℚ) (j : ℤ) (h1 : (j : ℚ) - 1 / 2 < q) (h2 : q < j + 1 / 2) :
    roundHalfEven q = j :=
  le_antisymm (roundHalfEven_le q j h2) (le_roundHalfEven q j h1)

theorem ulp_pos (x : ℚ) : 0 < ulp x := zpow_pos (by norm_num) _

theorem binade_def (x : ℚ) : binade x = max (Int.log 2 |x|) (-1022) := by
  unfold binade
  rfl

theorem binade_ge (x : ℚ) : -1022 ≤ binade x := by
  rw [binade_def]
  exact le_max_right _ _

theorem abs_lt_zpow_binade (x : ℚ) : |x| < (2 : ℚ) ^ (binade x + 1) := by
  have h := Int.lt_zpow_succ_log_self (b := 2) (by norm_num) |x|
  refine lt_of_lt_of_le h ?_
  have : Int.log 2 |x| + 1 ≤ binade x + 1 := by
    have := le_max_left (Int.log 2 |x|) (-1022)
    rw [binade_def]; omega
  exact_mod_cast zpow_le_zpow_right₀ (a := (2 : ℚ)) (by norm_num) this

theorem binade_eq (x : ℚ) (e : ℤ) (he : -1022 ≤ e) (hlo : (2 : ℚ) ^ e ≤ |x|)
    (hhi : |x| < (2 : ℚ) ^ (e + 1)) : binade x = e := by
  have hpos : 0 < |x| := lt_of_lt_of_le (zpow_pos (by norm_num) _) hlo
  have h1 : e ≤ Int.log 2 |x| := by
    have := (Int.zpow_le_iff_le_log (b := 2) (by norm_num) (x := e) hpos).mp
      (by exact_mod_cast hlo)
    exact this
  have h2 : Int.log 2 |x| < e + 1 := by
    have := (Int.lt_zpow_iff_log_lt (b := 2) (by norm_num) (x := e + 1) hpos).mp
      (by exact_mod_cast hhi)
    exact this
  rw [binade_def]
  have : Int.log 2 |x| = e := by omega
  rw [this]
  exact max_eq_left he

theorem roundDouble_eq (x : ℚ) (e m : ℤ) (he : -1022 ≤ e) (hlo : (2 : ℚ) ^ e ≤ |x|)
    (hhi : |x| < (2 : ℚ) ^ (e + 1)) (h1 : (m : ℚ) - 1 / 2 < x / (2 : ℚ) ^ (e - 52))
    (h2 : x / (2 : ℚ) ^ (e - 52) < m + 1 / 2) :
    roundDouble x = m * (2 : ℚ) ^ (e - 52) := by
  unfold roundDouble ulp
  rw [binade_eq x e he hlo hhi, roundHalfEven_eq _ m h1 h2]

theorem roundDouble_zero : roundDouble 0 = 0 := by
  unfold roundDouble
  rw [zero_div, roundHalfEven_eq 0 0 (by norm_num) (by norm_num)]
  simp

theorem roundDouble_nonneg (x : ℚ) (hx : 0 ≤ x) : 0 ≤ roundDouble x := by
  unfold roundDouble
  have hq : (0 : ℚ) ≤ x / ulp x := div_nonneg hx (ulp_pos x).le
  have : (0 : ℤ) ≤ roundHalfEven (x / ulp x) :=
    le_roundHalfEven _ 0 (by push_cast; linarith)
  exact mul_nonneg (by exact_mod_cast this) (ulp_pos x).le

/-- A product `u * n` of a number `u` of at most `1 - 2^-53` and a positive
integer `n` of at most `2^53` rounds to a double below `n`. -/
theorem roundDouble_mul_lt (u : ℚ) (n : ℕ) (h0 : 0 ≤ u) (hu : u ≤ 1 - (2 : ℚ) ^ (-53 : ℤ))
    (hn : 0 < n) (hn53 : n ≤ 2 ^ 53) : roundDouble (u * n) < n := by
  have hnq : (0 : ℚ) < n := by exact_mod_cast hn
  have hx0 : 0 ≤ u * n := mul_nonneg h0 hnq.le
  rcases hx0.eq_or_lt with hz | hxpos
  · rw [← hz, roundDouble_zero]; exact hnq
  set x := u * (n : ℚ) with hx
  have hxn : x ≤ n - n * (2 : ℚ) ^ (-53 : ℤ) := by
    have : u * n ≤ (1 - (2 : ℚ) ^ (-53 : ℤ)) * n := mul_le_mul_of_nonneg_right hu hnq.le
    rw [hx]; linarith
  have h53 : (0 : ℚ) < (2 : ℚ) ^ (-53 : ℤ) := zpow_pos (by norm_num) _
  have hxltn : x < n := by nlinarith
  set e := binade x with he
  have hU : 0 < ulp x := ulp_pos x
  have hUdef : ulp x = (2 : ℚ) ^ (e - 52) := rfl
  have habs : |x| = x := abs_of_pos hxpos
  have hhi : x < (2 : ℚ) ^ (e + 1) := by
    have := abs_lt_zpow_binade x
    rwa [habs] at this
  have hsplit : (2 : ℚ) ^ (e + 1) = 2 ^ 53 * ulp x := by
    rw [hUdef, show e + 1 = 53 + (e - 52) by ring, zpow_add₀ (by norm_num)]
    norm_num
  by_cases hA : (2 : ℚ) ^ (e + 1) < n
  · -- the product lies in a binade below that of `n`
    have hq : x / ulp x < ((2 ^ 53 : ℤ) : ℚ) + 1 / 2 := by
      rw [div_lt_iff₀ hU]
      push_cast
      nlinarith
    have hr := roundHalfEven_le _ _ hq
    have hr' : (roundHalfEven (x / ulp x) : ℚ) ≤ 2 ^ 53 := by exact_mod_cast hr
    calc roundDouble x = (roundHalfEven (x / ulp x) : ℚ) * ulp x := rfl
      _ ≤ 2 ^ 53 * ulp x := mul_le_mul_of_nonneg_right hr' hU.le
      _ = (2 : ℚ) ^ (e + 1) := hsplit.symm
      _ < n := hA
  · -- the product lies in the binade of the predecessor of `n`
    push_neg at hA
    have hn1 : (1 : ℚ) ≤ n := by exact_mod_cast hn
    have he1 : -1 ≤ e := by
      by_contra hc
      push_neg at hc
      have : (2 : ℚ) ^ (e + 1) < 1 := by
        have h2 : (2 : ℚ) ^ (e + 1) ≤ 2 ^ (-1 : ℤ) :=
          zpow_le_zpow_right₀ (by norm_num) (by omega)
        have : (2 : ℚ) ^ (-1 : ℤ) < 1 := by norm_num
        linarith
      linarith
    have hlog : Int.log 2 |x| = e := by
      have : e = max (Int.log 2 |x|) (-1022) := binade_def x
      rcases le_total (Int.log 2 |x|) (-1022) with hl | hl
      · rw [max_eq_right hl] at this; omega
      · rw [max_eq_left hl] at this; exact this.symm
    have hlo : (2 : ℚ) ^ e ≤ x := by
      have := Int.zpow_log_le_self (b := 2) (by norm_num) (r := |x|) (by rw [habs]; exact hxpos)
      rw [hlog, habs] at this
      exact_mod_cast this
    have he52 : e ≤ 52 := by
      by_contra hc
      push_neg at hc
      have h2 : (2 : ℚ) ^ (53 : ℤ) ≤ 2 ^ e := zpow_le_zpow_right₀ (by norm_num) (by omega)
      have h3 : (n : ℚ) ≤ 2 ^ 53 := by exact_mod_cast hn53
      have h4 : (2 : ℚ) ^ (53 : ℤ) = 2 ^ 53 := by norm_num
      linarith
    -- `n` is a multiple of the unit in the last place
    obtain ⟨k, hk⟩ : ∃ k : ℕ, (k : ℤ) = 52 - e := ⟨(52 - e).toNat, by omega⟩
    have hkU : (2 : ℚ) ^ k * ulp x = 1 := by
      rw [hUdef, ← zpow_natCast, ← zpow_add₀ (by norm_num), hk]
      simp
    have hnU : (n : ℚ) = ((n * 2 ^ k : ℕ) : ℚ) * ulp x := by
      push_cast
      rw [mul_assoc, hkU, mul_one]
    have hhalf : (2 : ℚ) ^ e * (2 : ℚ) ^ (-53 : ℤ) = ulp x / 2 := by
      rw [hUdef, ← zpow_add₀ (by norm_num), show e - 52 = e + -53 + 1 by ring,
        zpow_add₀ (by norm_num) (e + -53) 1]
      norm_num
    have hgap : x < n - ulp x / 2 := by
      have h5 : (2 : ℚ) ^ e * (2 : ℚ) ^ (-53 : ℤ) < n * (2 : ℚ) ^ (-53 : ℤ) :=
        mul_lt_mul_of_pos_right (lt_of_le_of_lt hlo hxltn) h53
      rw [hhalf] at h5
      calc x ≤ n - n * (2 : ℚ) ^ (-53 : ℤ) := hxn
        _ < n - ulp x / 2 := sub_lt_sub_left h5 _
    have hq : x / ulp x < (((n * 2 ^ k : ℕ) : ℤ) - 1 : ℤ) + 1 / 2 := by
      rw [div_lt_iff₀ hU]
      push_cast
      have : ((n : ℚ) * 2 ^ k - 1 + 1 / 2) * ulp x = n - ulp x / 2 := by
        have := hnU
        push_cast at this
        linarith
      rw [this]
      exact hgap
    have hr := roundHalfEven_le _ _ hq
    have hr' : (roundHalfEven (x / ulp x) : ℚ) ≤ ((n * 2 ^ k : ℕ) : ℚ) - 1 := by
      exact_mod_cast hr
    calc roundDouble x = (roundHalfEven (x / ulp x) : ℚ) * ulp x := rfl
      _ ≤ (((n * 2 ^ k : ℕ) : ℚ) - 1) * ulp x := mul_le_mul_of_nonneg_right hr' hU.le
      _ = n - ulp x := by rw [sub_mul, ← hnU, one_mul]
      _ < n := by linarith

/-- The doubles below 1 are at most `1 - 2^-53`. -/
theorem isDouble_le_pred_one (u : ℚ) (hd : isDouble u) (h0 : 0 ≤ u) (h1 : u < 1) :
    u ≤ 1 - (2 : ℚ) ^ (-53 : ℤ) := by
  rcases h0.eq_or_lt with hz | hpos
  · rw [← hz]; norm_num
  have habs : |u| = u := abs_of_pos hpos
  have hlog : Int.log 2 |u| < 0 := by
    rw [← Int.lt_zpow_iff_log_lt (b := 2) (by norm_num) (by rw [habs]; exact hpos), habs]
    simpa using h1
  have he : binade u ≤ -1 := by
    rw [binade_def]
    exact max_le (by omega) (by norm_num)
  rcases he.eq_or_lt with he1 | he2
  · -- the binade [1/2, 1)
    have hU : ulp u = (2 : ℚ) ^ (-53 : ℤ) := by
      unfold ulp; rw [he1]; norm_num
    have hu : u = (roundHalfEven (u / ulp u) : ℚ) * (2 : ℚ) ^ (-53 : ℤ) := by
      have : roundDouble u = u := hd
      unfold roundDouble at this
      rw [hU] at this ⊢
      exact this.symm
    set r := roundHalfEven (u / ulp u)
    have hr : (r : ℚ) < 2 ^ 53 := by
      have h2 : (r : ℚ) * (2 : ℚ) ^ (-53 : ℤ) < 1 := by rw [← hu]; exact h1
      have h3 : (2 : ℚ) ^ (-53 : ℤ) = 1 / 2 ^ 53 := by norm_num
      rw [h3, mul_one_div, div_lt_one (by positivity)] at h2
      exact h2
    have hr' : r ≤ 2 ^ 53 - 1 := by
      have : r < 2 ^ 53 := by exact_mod_cast hr
      omega
    have hr'' : (r : ℚ) ≤ 2 ^ 53 - 1 := by exact_mod_cast hr'
    rw [hu]
    have h3 : (2 : ℚ) ^ (-53 : ℤ) = 1 / 2 ^ 53 := by norm_num
    rw [h3]
    have : (r : ℚ) * (1 / 2 ^ 53) ≤ (2 ^ 53 - 1) * (1 / 2 ^ 53) :=
      mul_le_mul_of_nonneg_right hr'' (by positivity)
    have h4 : ((2 : ℚ) ^ 53 - 1) * (1 / 2 ^ 53) = 1 - 1 / 2 ^ 53 := by
      field_simp
    linarith
  · -- below 1/2
    have hlt := abs_lt_zpow_binade u
    rw [habs] at hlt
    have h2 : (2 : ℚ) ^ (binade u + 1) ≤ 2 ^ (-1 : ℤ) :=
      zpow_le_zpow_right₀ (by norm_num) (by omega)
    have h3 : (2 : ℚ) ^ (-1 : ℤ) ≤ 1 - (2 : ℚ) ^ (-53 : ℤ) := by norm_num
    linarith

theorem roundHalfEven_tie_odd (q : ℚ) (j : ℤ) (hq : q = j + 1 / 2) (hodd : j % 2 = 1) :
    roundHalfEven q = j + 1 := by
  have hf : ⌊q⌋ = j := by
    rw [Int.floor_eq_iff, hq]
    constructor <;> linarith
  unfold roundHalfEven
  rw [hf, hq]
  have h1 : ¬ ((j : ℚ) + 1 / 2 - j < 1 / 2) := by norm_num
  have h2 : ¬ ((1 : ℚ) / 2 < (j : ℚ) + 1 / 2 - j) := by norm_num
  have h3 : ¬ (j % 2 = 0) := by omega
  rw [if_neg h1, if_neg h2, if_neg h3]

theorem roundDouble_of_binade (x : ℚ) (e : ℤ) (he : -1022 ≤ e) (hlo : (2 : ℚ) ^ e ≤ |x|)
    (hhi : |x| < (2 : ℚ) ^ (e + 1)) :
    roundDouble x = (roundHalfEven (x / (2 : ℚ) ^ (e - 52)) : ℚ) * (2 : ℚ) ^ (e - 52) := by
  unfold roundDouble ulp
  rw [binade_eq x e he hlo hhi]

/-! ### The doubles of the load test -/

theorem roundDouble_060 : roundDouble 0.60 = 5404319552844595 / 2 ^ 53 := by
  rw [roundDouble_eq 0.60 (-1) 5404319552844595 (by norm_num) (by norm_num [abs_of_pos])
    (by norm_num [abs_of_pos]) (by norm_num) (by norm_num)]
  norm_num

theorem roundDouble_085 : roundDouble 0.85 = 7656119366529843 / 2 ^ 53 := by
  rw [roundDouble_eq 0.85 (-1) 7656119366529843 (by norm_num) (by norm_num [abs_of_pos])
    (by norm_num [abs_of_pos]) (by norm_num) (by norm_num)]
  norm_num

theorem roundDouble_095 : roundDouble 0.95 = 8556839292003942 / 2 ^ 53 := by
  rw [roundDouble_eq 0.95 (-1) 8556839292003942 (by norm_num) (by norm_num [abs_of_pos])
    (by norm_num [abs_of_pos]) (by norm_num) (by norm_num)]
  norm_num

theorem roundDouble_100 : roundDouble 1.00 = 1 := by
  rw [roundDouble_eq 1.00 0 4503599627370496 (by norm_num) (by norm_num [abs_of_pos])
    (by norm_num [abs_of_pos]) (by norm_num) (by norm_num)]
  norm_num

theorem roundDouble_025 : roundDouble 0.25 = 1 / 4 := by
  rw [roundDouble_eq 0.25 (-2) 4503599627370496 (by norm_num) (by norm_num [abs_of_pos])
    (by norm_num [abs_of_pos]) (by norm_num) (by norm_num)]
  norm_num

theorem roundDouble_010 : roundDouble 0.10 = 7205759403792794 / 2 ^ 56 := by
  rw [roundDouble_eq 0.10 (-4) 7205759403792794 (by norm_num) (by norm_num [abs_of_pos])
    (by norm_num [abs_of_pos]) (by norm_num) (by norm_num)]
  norm_num

theorem roundDouble_005 : roundDouble 0.05 = 7205759403792794 / 2 ^ 57 := by
  rw [roundDouble_eq 0.05 (-5) 7205759403792794 (by norm_num) (by norm_num [abs_of_pos])
    (by norm_num [abs_of_pos]) (by norm_num) (by norm_num)]
  norm_num

theorem roundDouble_061 : roundDouble 0.61 = 5494391545392005 / 2 ^ 53 := by
  rw [roundDouble_eq 0.61 (-1) 5494391545392005 (by norm_num) (by norm_num [abs_of_pos])
    (by norm_num [abs_of_pos]) (by norm_num) (by norm_num)]
  norm_num

theorem roundDouble_0999 : roundDouble 0.999 = 8998192055486251 / 2 ^ 53 := by
  rw [roundDouble_eq 0.999 (-1) 8998192055486251 (by norm_num) (by norm_num [abs_of_pos])
    (by norm_num [abs_of_pos]) (by norm_num) (by norm_num)]
  norm_num

theorem isDouble_half : isDouble (1 / 2) := by
  unfold isDouble
  rw [roundDouble_eq (1 / 2) (-1) 4503599627370496 (by norm_num) (by norm_num [abs_of_pos])
    (by norm_num [abs_of_pos]) (by norm_num) (by norm_num)]
  norm_num

/-! ### Random indices -/

/-- The index `Math.floor(u * n)` of a double `u` in [0,1) and a length `n`
between 1 and `2^53` lies in [0, n). -/
theorem floor_jsMul_bounds (u : ℚ) (n : ℕ) (hd : isDouble u) (h0 : 0 ≤ u) (h1 : u < 1)
    (hn : 0 < n) (hn53 : n ≤ 2 ^ 53) :
    0 ≤ ⌊jsMul u (n : ℚ)⌋ ∧ ⌊jsMul u (n : ℚ)⌋ < (n : ℤ) := by
  have hnq : (0 : ℚ) ≤ n := Nat.cast_nonneg n
  constructor
  · exact Int.floor_nonneg.mpr (roundDouble_nonneg _ (mul_nonneg h0 hnq))
  · rw [Int.floor_lt]
    exact_mod_cast roundDouble_mul_lt u n h0 (isDouble_le_pred_one u hd h0 h1) hn hn53

theorem jsIndex_mem {α : Type} (xs : List α) (i : ℤ) (h0 : 0 ≤ i) (h1 : i < (xs.length : ℤ)) :
    ∃ x, x ∈ xs ∧ jsIndex xs i = some x := by
  have hlt : i.toNat < xs.length := by omega
  refine ⟨xs.get ⟨i.toNat, hlt⟩, List.get_mem _ _ _, ?_⟩
  simp [jsIndex, not_lt.mpr h0, List.getElem?_eq_getElem hlt]

theorem pick_mem {α : Type} (xs : List α) (u : ℚ) (hd : isDouble u) (h0 : 0 ≤ u) (h1 : u < 1)
    (hne : xs ≠ []) (hlen : xs.length ≤ 2 ^ 53) : ∃ x, x ∈ xs ∧ pick xs u = some x := by
  unfold pick
  exact jsIndex_mem xs _ (floor_jsMul_bounds u _ hd h0 h1 (List.length_pos.mpr hne) hlen).1
    (floor_jsMul_bounds u _ hd h0 h1 (List.length_pos.mpr hne) hlen).2

/-! ### Traces and objects -/

theorem rateObservations_append (m : Metric) (t₁ t₂ : List Event) :
    rateObservations m (t₁ ++ t₂) = rateObservations m t₁ ++ rateObservations m t₂ := by
  simp [rateObservations, List.filterMap_append]

theorem readProp_setProp_same {α : Type} (fields : List (String × α)) (k : String) (v : α) :
    readProp (setProp fields k v) k = some v := by
  induction fields with
  | nil => simp [setProp, readProp, List.lookup]
  | cons kv rest ih =>
    obtain ⟨k', v'⟩ := kv
    by_cases hk : k' = k
    · simp [setProp, readProp, List.lookup, hk]
    · have hk' : (k == k') = false := by simpa using Ne.symm hk
      simpa [setProp, readProp, List.lookup, hk, hk'] using ih

theorem readProp_setProp_other {α : Type} (fields : List (String × α)) (k k' : String) (v : α)
    (hne : k' ≠ k) : readProp (setProp fields k v) k' = readProp fields k' := by
  induction fields with
  | nil =>
    have : (k' == k) = false := by simpa using hne
    simp [setProp, readProp, List.lookup, this]
  | cons kv rest ih =>
    obtain ⟨k₀, v₀⟩ := kv
    by_cases hk : k₀ = k
    · subst hk
      have : (k' == k₀) = false := by simpa using hne
      simp [setProp, readProp, List.lookup, this]
    · by_cases hk0 : k' = k₀
      · subst hk0
        simp [setProp, readProp, List.lookup, hk]
      · have : (k' == k₀) = false := by simpa using hk0
        simpa [setProp, readProp, List.lookup, hk, this] using ih

end K6

/-! ## Properties of the smoke test -/

namespace SmokeTest

open K6

/-- C2: `setup` of the smoke test throws exactly when the status of the health
probe is not 200 and returns the empty object exactly when it is 200; in both
cases the health probe is the one request it has issued. -/
theorem setup_throws_iff_unhealthy (h : Host) (s : State) :
    ((∃ e, (setup h s).1 = .error e) ↔ (h.respond s.sent).status ≠ 200) ∧
    ((setup h s).1 = .ok [] ↔ (h.respond s.sent).status = 200) ∧
    (setup h s).2.trace = s.trace ++ [.request .health] ∧
    (setup h s).2.sent = s.sent + 1 := by
  by_cases hs : (h.respond s.sent).status = 200 <;> simp [setup, httpSend, hs]

end SmokeTest

/-! ## Properties of the load test -/

namespace LoadTest

open K6

/-- C8: the object `options.thresholds` of the load test holds, for
`http_req_duration`, the list with the single entry 'avg<200'; the bound
'p(95)<500' of the first definition of the key is not in it. The entry for
`error_rate` is 'rate<0.01'. -/
theorem thresholds_http_req_duration :
    readProp thresholds "http_req_duration" = some ["avg<200"] ∧
    readProp thresholds "error_rate" = some ["rate<0.01"] ∧
    "p(95)<500" ∉ (readProp thresholds "http_req_duration").getD [] := by
  decide

/-- C3: with an empty pool of product ids `viewProductDetail` returns at once:
for every host and state the state is unchanged, so no request is sent and
nothing is submitted to any metric. -/
theorem viewProductDetail_empty_pool (h : Host) (s : State) :
    viewProductDetail h s [] = (.ok (), s) ∧
    requests (viewProductDetail h s []).2.trace = requests s.trace ∧
    rateObservations .errorRate (viewProductDetail h s []).2.trace
      = rateObservations .errorRate s.trace ∧
    trendSamples .productDetailDuration (viewProductDetail h s []).2.trace
      = trendSamples .productDetailDuration s.trace := by
  simp [viewProductDetail]

theorem truthy_detailHasProductData (r : Response) :
    truthy (detailHasProductData r) = hasTruthyRequiredFields r := by
  unfold detailHasProductData hasTruthyRequiredFields jsonParse
  rcases r.json with _ | v
  · simp [orFalse, truthy, bind, Except.bind]
  · cases v
    case obj fields =>
      simp only [bind, Except.bind, getProp, pure, Except.pure]
      cases h1 : truthy ((readProp fields "id").getD .undefined) <;>
        cases h2 : truthy ((readProp fields "title").getD .undefined) <;>
        simp [orFalse, h1, h2]
    all_goals simp [orFalse, truthy, bind, Except.bind, getProp, pure, Except.pure]

theorem drawSearchParams_state (h : Host) (s : State) :
    (drawSearchParams h s).2 = { s with draws := s.draws + 4 } := by
  simp [drawSearchParams, mathRandom]

theorem browseProducts_run (h : Host) (s : State) (hurl : h.urlSearchParams = true) :
    browseProducts h s = (.ok (),
      { draws := s.draws + 4, clock := s.clock + 2, sent := s.sent + 1,
        authTokens := s.authTokens,
        trace := s.trace ++
          [.request (.searchProducts (drawSearchParams h s).1),
           .trend .productSearchDuration (h.now (s.clock + 1) - h.now s.clock),
           .check "product search status is 200" (decide ((h.respond s.sent).status = 200)),
           .check "product search has products"
             (truthy (searchHasProducts h (h.respond s.sent))),
           .rate .errorRate (!(decide ((h.respond s.sent).status = 200) &&
             truthy (searchHasProducts h (h.respond s.sent))))] }) := by
  simp [browseProducts, drawSearchParams, hurl, mathRandom, dateNow, httpSend, emit, check,
    statusIs200, truthy_bool]

theorem browseProducts_throws (h : Host) (s : State) (hurl : h.urlSearchParams = false) :
    browseProducts h s = (.error .referenceError, { s with draws := s.draws + 4 }) := by
  simp [browseProducts, drawSearchParams, hurl, mathRandom]

theorem viewProductDetail_run (h : Host) (s : State) (productIds : List JsVal)
    (hpool : productIds ≠ []) :
    viewProductDetail h s productIds = (.ok (),
      { draws := s.draws + 1, clock := s.clock + 2, sent := s.sent + 1,
        authTokens := s.authTokens,
        trace := s.trace ++
          [.request (.productDetail ((pick productIds (h.random s.draws)).getD .undefined)),
           .trend .productDetailDuration (h.now (s.clock + 1) - h.now s.clock),
           .check "product detail status is 200" (decide ((h.respond s.sent).status = 200)),
           .check "product detail has product data"
             (truthy (detailHasProductData (h.respond s.sent))),
           .rate .errorRate (!(decide ((h.respond s.sent).status = 200) &&
             truthy (detailHasProductData (h.respond s.sent))))] }) := by
  have hlen : productIds.length ≠ 0 := by simpa [List.length_eq_zero] using hpool
  simp [viewProductDetail, hlen, mathRandom, dateNow, httpSend, emit, check, statusIs200,
    truthy_bool]

theorem truthy_loginReturnsToken (r : Response) :
    truthy (loginReturnsToken r) = (accessTokenOf r).isSome := by
  unfold loginReturnsToken accessTokenOf jsonParse
  rcases r.json with _ | v
  · simp [orFalse, truthy, bind, Except.bind]
  · cases v
    case obj fields =>
      simp only [bind, Except.bind, getProp, pure, Except.pure]
      cases h1 : truthy ((readProp fields "accessToken").getD .undefined) <;>
        cases h2 : truthy ((readProp fields "refreshToken").getD .undefined) <;>
        simp [orFalse, h1, h2]
    all_goals simp [orFalse, truthy, bind, Except.bind, getProp, pure, Except.pure]

theorem parse_accessToken (r : Response) (a : JsVal) (ha : accessTokenOf r = some a) :
    (jsonParse r >>= fun authData => getProp authData "accessToken") = .ok a := by
  unfold accessTokenOf at ha
  unfold jsonParse
  rcases hj : r.json with _ | v
  · simp [hj] at ha
  · rw [hj] at ha
    cases v
    case obj fields =>
      simp only [bind, Except.bind, getProp]
      simp only [] at ha
      split_ifs at ha
      simpa using ha
    all_goals simp at ha

theorem authenticateUser_run (h : Host) (s : State) (user : User)
    (hu : pick testUsers (h.random s.draws) = some user) :
    authenticateUser h s = (.ok (),
      { draws := s.draws + 1, clock := s.clock + 2, sent := s.sent + 1,
        authTokens :=
          match (if (h.respond s.sent).status = 200 then accessTokenOf (h.respond s.sent)
            else none) with
          | some accessToken => setProp s.authTokens user.email accessToken
          | none => s.authTokens,
        trace := s.trace ++
          [.request (.login user.email user.password),
           .trend .authDuration (h.now (s.clock + 1) - h.now s.clock),
           .check "login status is 200" (decide ((h.respond s.sent).status = 200)),
           .check "login returns token" (truthy (loginReturnsToken (h.respond s.sent))),
           .rate .errorRate (!(decide ((h.respond s.sent).status = 200) &&
             truthy (loginReturnsToken (h.respond s.sent))))] }) := by
  unfold authenticateUser
  simp only [mathRandom, dateNow]
  rw [hu]
  simp only [httpSend, emit, check, statusIs200]
  by_cases hs : (h.respond s.sent).status = 200
  · rcases ha : accessTokenOf (h.respond s.sent) with _ | a
    · simp [hs, ha, truthy_bool, truthy_loginReturnsToken]
    · simp [hs, ha, truthy_bool, truthy_loginReturnsToken, parse_accessToken _ _ ha]
  · simp [hs, truthy_bool]

/-- C7, as stated, fails: the response `freeProduct` has status 200 and a body
in which `id`, `title` and `price` are all present, and `viewProductDetail`
records it as a failure (an `error_rate` observation `true`), the price `0`
being falsy. -/
theorem presence_of_fields_does_not_decide :
    freeProduct.status = 200 ∧ hasRequiredFields freeProduct = true ∧
    rateObservations .errorRate
      (viewProductDetail (constHost (1 / 2) freeProduct) freshState
        [.num (.fin 1)]).2.trace = [true] := by
  refine ⟨rfl, by decide, ?_⟩
  rw [viewProductDetail_run _ _ _ (by simp), truthy_detailHasProductData]
  simp [rateObservations, freshState, constHost, freeProduct, hasTruthyRequiredFields,
    readProp, List.lookup, truthy]

/-- C7, amended: for a non-empty pool and every response, `viewProductDetail`
submits one `error_rate` observation, and it is `false` (a success) exactly
when the status is 200 and the body is a JSON object whose fields `id`, `title`
and `price` all hold truthy values. -/
theorem viewProductDetail_outcome (h : Host) (s : State) (productIds : List JsVal)
    (hpool : productIds ≠ []) :
    rateObservations .errorRate (viewProductDetail h s productIds).2.trace
      = rateObservations .errorRate s.trace ++
        [!(decide ((h.respond s.sent).status = 200) &&
          hasTruthyRequiredFields (h.respond s.sent))] := by
  rw [viewProductDetail_run h s productIds hpool, truthy_detailHasProductData]
  simp [rateObservations_append, rateObservations]

/-- Witness of the amended C7: a product with a non-zero price is recorded as a
success. -/
theorem viewProductDetail_outcome_witness :
    [JsVal.num (.fin 1)] ≠ [] ∧
    rateObservations .errorRate
      (viewProductDetail (constHost (1 / 2) pricedProduct) freshState
        [.num (.fin 1)]).2.trace = [false] := by
  refine ⟨by simp, ?_⟩
  rw [viewProductDetail_outcome (constHost (1 / 2) pricedProduct) freshState
    [.num (.fin 1)] (by simp)]
  simp [rateObservations, freshState, constHost, pricedProduct, hasTruthyRequiredFields,
    readProp, List.lookup, truthy]

/-- C9: `authenticateUser`, run with a draw in [0,1) (a double, as every result
of `Math.random()`), draws a credential pair of `testUsers`. Its validation succeeds (both checks pass) exactly when the
status is 200 and the body carries both an `accessToken` and a `refreshToken`.
When it succeeds, the token cache afterwards is the former cache with the
user's email assigned the `accessToken` of the response, so that the email maps
to it and every other key reads as before; when it fails, the token cache is
the former cache. -/
theorem authenticateUser_token_cache (h : Host) (s : State)
    (hd : isDouble (h.random s.draws))
    (h0 : 0 ≤ h.random s.draws) (h1 : h.random s.draws < 1) :
    ∃ user, user ∈ testUsers ∧ pick testUsers (h.random s.draws) = some user ∧
      ((truthy (statusIs200 (h.respond s.sent)) &&
          truthy (loginReturnsToken (h.respond s.sent)))
        = (decide ((h.respond s.sent).status = 200) &&
          (accessTokenOf (h.respond s.sent)).isSome)) ∧
      (∀ a, (h.respond s.sent).status = 200 → accessTokenOf (h.respond s.sent) = some a →
        (authenticateUser h s).2.authTokens = setProp s.authTokens user.email a ∧
        readProp (authenticateUser h s).2.authTokens user.email = some a ∧
        ∀ k, k ≠ user.email →
          readProp (authenticateUser h s).2.authTokens k = readProp s.authTokens k) ∧
      (¬ ((h.respond s.sent).status = 200 ∧ (accessTokenOf (h.respond s.sent)).isSome) →
        (authenticateUser h s).2.authTokens = s.authTokens) := by
  obtain ⟨user, hmem, hu⟩ := pick_mem testUsers (h.random s.draws) hd h0 h1 (by decide)
    (by simp [testUsers])
  refine ⟨user, hmem, hu, ?_, ?_, ?_⟩
  · rw [truthy_loginReturnsToken, statusIs200, truthy_bool]
  · intro a hs ha
    have hrun : (authenticateUser h s).2.authTokens = setProp s.authTokens user.email a := by
      rw [authenticateUser_run h s user hu]
      simp [hs, ha]
    rw [hrun]
    exact ⟨rfl, readProp_setProp_same _ _ _,
      fun k hk => readProp_setProp_other _ _ _ _ hk⟩
  · intro hfail
    rw [authenticateUser_run h s user hu]
    by_cases hs : (h.respond s.sent).status = 200
    · have hn : accessTokenOf (h.respond s.sent) = none := by
        cases ha : accessTokenOf (h.respond s.sent) with
        | none => rfl
        | some a => exact absurd ⟨hs, by simp [ha]⟩ hfail
      simp [hs, hn]
    · simp [hs]

/-- Witness of C9: a successful login with the draw 1/2, which selects the
sixth credential pair. -/
theorem authenticateUser_token_cache_witness :
    isDouble ((constHost (1 / 2) loginOk).random freshState.draws) ∧
    (0 : ℚ) ≤ (constHost (1 / 2) loginOk).random freshState.draws ∧
    (constHost (1 / 2) loginOk).random freshState.draws < 1 ∧
    ∃ user, user ∈ testUsers ∧
      pick testUsers ((constHost (1 / 2) loginOk).random freshState.draws) = some user ∧
      (authenticateUser (constHost (1 / 2) loginOk) freshState).2.authTokens
        = [(user.email, .str "a1")] := by
  have h0 : (0 : ℚ) ≤ (constHost (1 / 2) loginOk).random freshState.draws := by
    simp [constHost]
  have h1 : (constHost (1 / 2) loginOk).random freshState.draws < 1 := by
    simp [constHost]; norm_num
  have hd : isDouble ((constHost (1 / 2) loginOk).random freshState.draws) := isDouble_half
  obtain ⟨user, hmem, hu, _, hok, _⟩ :=
    authenticateUser_token_cache (constHost (1 / 2) loginOk) freshState hd h0 h1
  refine ⟨hd, h0, h1, user, hmem, hu, ?_⟩
  have := (hok (.str "a1") rfl (by
    simp [accessTokenOf, constHost, loginOk, readProp, List.lookup, truthy])).1
  rw [this]
  simp [freshState, setProp]

/-- C5: when the cached admin token is missing (or falsy) and the admin login
fails, by a status other than 200 or by a body that cannot be parsed,
`adminOperations` returns normally having sent the login request and nothing
else: no privileged read, no submission to a rate or trend metric, the token
cache as before. -/
theorem adminOperations_login_failure (h : Host) (s : State)
    (hno : truthy ((readProp s.authTokens adminEmail).getD .undefined) = false)
    (hfail : (h.respond s.sent).status ≠ 200 ∨ (h.respond s.sent).json = none) :
    adminOperations h s = (.ok (),
      { s with sent := s.sent + 1,
               trace := s.trace ++ [.request (.login adminEmail "admin123")] }) ∧
    (adminOperations h s).2.authTokens = s.authTokens ∧
    requests (adminOperations h s).2.trace
      = requests s.trace ++ [.login adminEmail "admin123"] ∧
    (∀ m, rateObservations m (adminOperations h s).2.trace = rateObservations m s.trace) ∧
    (∀ m, trendSamples m (adminOperations h s).2.trace = trendSamples m s.trace) := by
  have hrun : adminOperations h s = (.ok (),
      { s with sent := s.sent + 1,
               trace := s.trace ++ [.request (.login adminEmail "admin123")] }) := by
    by_cases hs : (h.respond s.sent).status = 200
    · have hj : (h.respond s.sent).json = none := hfail.resolve_left (not_not.mpr hs)
      simp [adminOperations, hno, httpSend, hs, jsonParse, hj, bind, Except.bind]
    · simp [adminOperations, hno, httpSend, hs]
  rw [hrun]
  simp [requests, rateObservations, trendSamples, List.filterMap_append]

/-- Witness of C5: a fresh instance whose admin login is answered 401 with a
body that is not JSON. -/
theorem adminOperations_login_failure_witness :
    truthy ((readProp freshState.authTokens adminEmail).getD .undefined) = false ∧
    (((constHost (1 / 2) ⟨401, none⟩).respond freshState.sent).status ≠ 200 ∨
      ((constHost (1 / 2) ⟨401, none⟩).respond freshState.sent).json = none) ∧
    requests (adminOperations (constHost (1 / 2) ⟨401, none⟩) freshState).2.trace
      = [.login adminEmail "admin123"] := by
  have hno : truthy ((readProp freshState.authTokens adminEmail).getD .undefined) = false := by
    simp [freshState, readProp, truthy]
  have hfail : ((constHost (1 / 2) ⟨401, none⟩).respond freshState.sent).status ≠ 200 ∨
      ((constHost (1 / 2) ⟨401, none⟩).respond freshState.sent).json = none :=
    Or.inr rfl
  refine ⟨hno, hfail, ?_⟩
  rw [(adminOperations_login_failure (constHost (1 / 2) ⟨401, none⟩) freshState
    hno hfail).2.2.1]
  simp [requests, freshState]

/-- C6 fails on the code: with no token cached and the admin login answered by
`loginWithoutToken`, `adminOperations` caches `undefined` for the admin email and
goes on to send the admin metrics request with the bearer token `undefined`. -/
theorem adminOperations_sends_undefined_token :
    (adminOperations (constHost (3 / 10) loginWithoutToken) freshState).1 = .ok () ∧
    requests (adminOperations (constHost (3 / 10) loginWithoutToken) freshState).2.trace
      = [.login adminEmail "admin123", .adminMetrics .undefined] ∧
    (adminOperations (constHost (3 / 10) loginWithoutToken) freshState).2.authTokens
      = [(adminEmail, .undefined)] := by
  have hlt : ((3 : ℚ) / 10 < 0.5) := by norm_num
  simp [adminOperations, freshState, constHost, loginWithoutToken, readProp, truthy,
    httpSend, jsonParse, getProp, bind, Except.bind, setProp, mathRandom, check, requests,
    statusIs200, hlt, List.lookup, adminEmail]

theorem isDouble_nearNineTenths : isDouble nearNineTenths := by
  unfold isDouble nearNineTenths
  rw [roundDouble_eq _ (-1) 8106479329266892 (by norm_num) (by norm_num [abs_of_pos])
    (by norm_num [abs_of_pos]) (by norm_num) (by norm_num)]
  norm_num

/-- The product `0.8999999999999999 * 10` lies halfway between two doubles and
rounds to the even one, which is 9. -/
theorem jsMul_nearNineTenths : jsMul nearNineTenths 10 = 9 := by
  unfold jsMul nearNineTenths
  rw [roundDouble_of_binade _ 3 (by norm_num) (by norm_num [abs_of_pos])
    (by norm_num [abs_of_pos]),
    roundHalfEven_tie_odd _ 5066549580791807 (by norm_num) (by norm_num)]
  norm_num

theorem pick_nearNineTenths :
    pick testUsers nearNineTenths = some ⟨"test10@ozdilek.com", "test123"⟩ := by
  unfold pick
  have h10 : ((testUsers.length : ℕ) : ℚ) = 10 := by simp [testUsers]
  rw [h10, jsMul_nearNineTenths]
  have : ⌊(9 : ℚ)⌋ = 9 := by
    rw [Int.floor_eq_iff]; norm_num
  rw [this]
  rfl

/-- C10: for every double `u` in [0,1) and every length `n` from 1 to `2^53`
the index `Math.floor(u * n)`, with the product rounded to a double, lies in
[0, n). So when every result of `Math.random()` is a double in [0,1), the
parameters that `browseProducts` draws are a member of `searchQueries`, a
member of `categories`, a member of the sort keys and a page in [0,10) (and are
the parameters of its request where the host defines `URLSearchParams`), the
request of `viewProductDetail` with a non-empty pool carries a member of the
pool, and the login request of `authenticateUser` carries a credential pair of
`testUsers`. The length of the pool is the length of a JavaScript array, below
`2^32`. -/
theorem drawn_values_are_candidates (h : Host) (s : State) (productIds : List JsVal)
    (hrand : ∀ k, isDouble (h.random k) ∧ 0 ≤ h.random k ∧ h.random k < 1)
    (hpool : productIds ≠ []) (hlen : productIds.length < 2 ^ 32) :
    (∀ (u : ℚ) (n : ℕ), isDouble u → 0 ≤ u → u < 1 → 0 < n → n ≤ 2 ^ 53 →
      0 ≤ ⌊jsMul u (n : ℚ)⌋ ∧ ⌊jsMul u (n : ℚ)⌋ < (n : ℤ)) ∧
    (∀ (xs : List JsVal) (u : ℚ), isDouble u → 0 ≤ u → u < 1 → xs ≠ [] →
      xs.length ≤ 2 ^ 53 → ∃ x, x ∈ xs ∧ pick xs u = some x) ∧
    (∃ q c k page, q ∈ searchQueries ∧ c ∈ categories ∧ k ∈ sortKeys ∧
      0 ≤ page ∧ page < 10 ∧
      (drawSearchParams h s).1
        = { q := some q, category := some c, page := page, size := 20, sort := some k }) ∧
    (h.urlSearchParams = true →
      requests (browseProducts h s).2.trace
        = requests s.trace ++ [.searchProducts (drawSearchParams h s).1]) ∧
    (∃ id, id ∈ productIds ∧
      requests (viewProductDetail h s productIds).2.trace
        = requests s.trace ++ [.productDetail id]) ∧
    (∃ user, user ∈ testUsers ∧
      requests (authenticateUser h s).2.trace
        = requests s.trace ++ [.login user.email user.password]) := by
  have hpool53 : productIds.length ≤ 2 ^ 53 :=
    le_of_lt (lt_of_lt_of_le hlen (by norm_num))
  refine ⟨fun u n hd h0 h1 hn hn53 => floor_jsMul_bounds u n hd h0 h1 hn hn53,
    fun xs u hd h0 h1 hne hl => pick_mem xs u hd h0 h1 hne hl, ?_, ?_, ?_, ?_⟩
  · obtain ⟨q, hq, hq'⟩ := pick_mem searchQueries (h.random s.draws)
      (hrand _).1 (hrand _).2.1 (hrand _).2.2 (by decide) (by simp [searchQueries])
    obtain ⟨c, hc, hc'⟩ := pick_mem categories (h.random (s.draws + 1))
      (hrand _).1 (hrand _).2.1 (hrand _).2.2 (by decide) (by simp [categories])
    have hs4 := floor_jsMul_bounds (h.random (s.draws + 1 + 1 + 1)) 4
      (hrand _).1 (hrand _).2.1 (hrand _).2.2 (by norm_num) (by norm_num)
    have hp10 := floor_jsMul_bounds (h.random (s.draws + 1 + 1)) 10
      (hrand _).1 (hrand _).2.1 (hrand _).2.2 (by norm_num) (by norm_num)
    simp only [Nat.cast_ofNat] at hs4 hp10
    obtain ⟨k, hk, hk'⟩ := jsIndex_mem sortKeys ⌊jsMul (h.random (s.draws + 1 + 1 + 1)) 4⌋
      hs4.1 (by simpa [sortKeys] using hs4.2)
    refine ⟨q, c, k, ⌊jsMul (h.random (s.draws + 1 + 1)) 10⌋, hq, hc, hk, hp10.1,
      hp10.2, ?_⟩
    simp only [drawSearchParams, mathRandom]
    rw [hq', hc', hk']
  · intro hurl
    rw [browseProducts_run h s hurl]
    simp [requests, List.filterMap_append]
  · obtain ⟨id, hid, hid'⟩ := pick_mem productIds (h.random s.draws)
      (hrand _).1 (hrand _).2.1 (hrand _).2.2 hpool hpool53
    refine ⟨id, hid, ?_⟩
    rw [viewProductDetail_run h s productIds hpool, hid']
    simp [requests, List.filterMap_append]
  · obtain ⟨user, hu, hu'⟩ := pick_mem testUsers (h.random s.draws)
      (hrand _).1 (hrand _).2.1 (hrand _).2.2 (by decide) (by simp [testUsers])
    refine ⟨user, hu, ?_⟩
    rw [authenticateUser_run h s user hu']
    simp [requests, List.filterMap_append]

/-- Witness of C10: every draw is the double 0.8999999999999999, whose exact
tenfold is below 9 and whose rounded tenfold is 9, so that the tenth credential
pair is drawn; the pool has three product ids. -/
theorem drawn_values_are_candidates_witness :
    (∀ k, isDouble ((constHost nearNineTenths ⟨200, none⟩).random k) ∧
      0 ≤ (constHost nearNineTenths ⟨200, none⟩).random k ∧
      (constHost nearNineTenths ⟨200, none⟩).random k < 1) ∧
    [JsVal.num (.fin 7), .num (.fin 8), .num (.fin 9)] ≠ [] ∧
    [JsVal.num (.fin 7), .num (.fin 8), .num (.fin 9)].length < 2 ^ 32 ∧
    pick testUsers nearNineTenths = some ⟨"test10@ozdilek.com", "test123"⟩ ∧
    (∃ id, id ∈ [JsVal.num (.fin 7), .num (.fin 8), .num (.fin 9)] ∧
      requests (viewProductDetail (constHost nearNineTenths ⟨200, none⟩) freshState
        [.num (.fin 7), .num (.fin 8), .num (.fin 9)]).2.trace
        = requests freshState.trace ++ [.productDetail id]) ∧
    (∃ user, user ∈ testUsers ∧
      requests (authenticateUser (constHost nearNineTenths ⟨200, none⟩) freshState).2.trace
        = requests freshState.trace ++ [.login user.email user.password]) := by
  have hr : ∀ k, isDouble ((constHost nearNineTenths ⟨200, none⟩).random k) ∧
      0 ≤ (constHost nearNineTenths ⟨200, none⟩).random k ∧
      (constHost nearNineTenths ⟨200, none⟩).random k < 1 := by
    intro k
    refine ⟨isDouble_nearNineTenths, ?_, ?_⟩ <;> simp [constHost, nearNineTenths] <;> norm_num
  have hp : [JsVal.num (.fin 7), .num (.fin 8), .num (.fin 9)] ≠ [] := by simp
  have hl : [JsVal.num (.fin 7), .num (.fin 8), .num (.fin 9)].length < 2 ^ 32 := by
    simp
  have hthm := drawn_values_are_candidates (constHost nearNineTenths ⟨200, none⟩) freshState
    [.num (.fin 7), .num (.fin 8), .num (.fin 9)] hr hp hl
  exact ⟨hr, hp, hl, pick_nearNineTenths, hthm.2.2.2.2.1, hthm.2.2.2.2.2⟩

/-- On a host that defines `URLSearchParams`, with every result of
`Math.random()` a double in [0,1) and a non-empty pool, each of `browseProducts`,
`viewProductDetail` and `authenticateUser` returns normally for every response
and submits exactly one `error_rate` observation, which is true exactly when the
status is not 200 or the value of the executor's validation function is falsy;
on a body that cannot be parsed and on a body that parses to `null` each
validation function is falsy. -/
theorem executors_record_one_outcome (h : Host) (s : State) (productIds : List JsVal)
    (hrand : ∀ k, isDouble (h.random k) ∧ 0 ≤ h.random k ∧ h.random k < 1)
    (hpool : productIds ≠ []) (hurl : h.urlSearchParams = true) :
    ((browseProducts h s).1 = .ok () ∧
      rateObservations .errorRate (browseProducts h s).2.trace
        = rateObservations .errorRate s.trace ++
          [decide ((h.respond s.sent).status ≠ 200) ||
            !truthy (searchHasProducts h (h.respond s.sent))]) ∧
    ((viewProductDetail h s productIds).1 = .ok () ∧
      rateObservations .errorRate (viewProductDetail h s productIds).2.trace
        = rateObservations .errorRate s.trace ++
          [decide ((h.respond s.sent).status ≠ 200) ||
            !truthy (detailHasProductData (h.respond s.sent))]) ∧
    ((authenticateUser h s).1 = .ok () ∧
      rateObservations .errorRate (authenticateUser h s).2.trace
        = rateObservations .errorRate s.trace ++
          [decide ((h.respond s.sent).status ≠ 200) ||
            !truthy (loginReturnsToken (h.respond s.sent))]) ∧
    (∀ status : ℤ,
      truthy (searchHasProducts h ⟨status, none⟩) = false ∧
      truthy (searchHasProducts h ⟨status, some .null⟩) = false ∧
      truthy (detailHasProductData ⟨status, none⟩) = false ∧
      truthy (detailHasProductData ⟨status, some .null⟩) = false ∧
      truthy (loginReturnsToken ⟨status, none⟩) = false ∧
      truthy (loginReturnsToken ⟨status, some .null⟩) = false) := by
  obtain ⟨user, _, hu⟩ := pick_mem testUsers (h.random s.draws)
    (hrand _).1 (hrand _).2.1 (hrand _).2.2 (by decide) (by simp [testUsers])
  refine ⟨?_, ?_, ?_, ?_⟩
  · rw [browseProducts_run h s hurl]
    simp [rateObservations_append, rateObservations, Bool.not_and]
  · rw [viewProductDetail_run h s productIds hpool]
    simp [rateObservations_append, rateObservations, Bool.not_and]
  · rw [authenticateUser_run h s user hu]
    simp [rateObservations_append, rateObservations, Bool.not_and]
  · intro status
    simp [searchHasProducts, detailHasProductData, loginReturnsToken, jsonParse, orFalse,
      getProp, truthy, bind, Except.bind]

/-- C4 fails on the code for `browseProducts`: on a host that does not define
the global `URLSearchParams`, whatever the draws, the response and the state,
`browseProducts` throws a ReferenceError after its four draws: it sends no
request and submits no `error_rate` observation and no duration sample. So it
is on the response `productPage`, which a host that defines `URLSearchParams`
records as a success. -/
theorem browseProducts_throws_without_URLSearchParams (u : ℚ) (r : Response) (s : State) :
    (browseProducts (plainHost u r) s).1 = .error .referenceError ∧
    requests (browseProducts (plainHost u r) s).2.trace = requests s.trace ∧
    rateObservations .errorRate (browseProducts (plainHost u r) s).2.trace
      = rateObservations .errorRate s.trace ∧
    trendSamples .productSearchDuration (browseProducts (plainHost u r) s).2.trace
      = trendSamples .productSearchDuration s.trace ∧
    (browseProducts (plainHost (1 / 2) productPage) freshState).1 = .error .referenceError ∧
    rateObservations .errorRate
      (browseProducts (plainHost (1 / 2) productPage) freshState).2.trace = [] ∧
    rateObservations .errorRate
      (browseProducts (constHost (1 / 2) productPage) freshState).2.trace = [false] := by
  have hplain : ∀ (u : ℚ) (r : Response), (plainHost u r).urlSearchParams = false :=
    fun _ _ => rfl
  rw [browseProducts_throws _ s (hplain u r), browseProducts_throws _ freshState (hplain _ _),
    browseProducts_run (constHost (1 / 2) productPage) freshState rfl]
  simp [rateObservations, freshState, constHost, productPage, searchHasProducts, jsonParse,
    getProp, readProp, List.lookup, orFalse, truthy, bind, Except.bind, pure, Except.pure,
    toNumber, JsNum.gtZero, List.filterMap_append]

/-! ### The dispatch of the default function -/

theorem jsAdd_zero_060 : jsAdd 0 (roundDouble 0.60) = roundDouble 0.60 := by
  unfold jsAdd
  rw [roundDouble_060, roundDouble_eq _ (-1) 5404319552844595 (by norm_num)
    (by norm_num [abs_of_pos]) (by norm_num [abs_of_pos]) (by norm_num) (by norm_num)]
  norm_num

theorem jsAdd_060_025 : jsAdd (roundDouble 0.60) (roundDouble 0.25) = roundDouble 0.85 := by
  unfold jsAdd
  rw [roundDouble_060, roundDouble_025, roundDouble_085,
    roundDouble_eq _ (-1) 7656119366529843 (by norm_num)
    (by norm_num [abs_of_pos]) (by norm_num [abs_of_pos]) (by norm_num) (by norm_num)]
  norm_num

theorem jsAdd_085_010 : jsAdd (roundDouble 0.85) (roundDouble 0.10) = roundDouble 0.95 := by
  unfold jsAdd
  rw [roundDouble_085, roundDouble_010, roundDouble_095,
    roundDouble_eq _ (-1) 8556839292003942 (by norm_num)
    (by norm_num [abs_of_pos]) (by norm_num [abs_of_pos]) (by norm_num) (by norm_num)]
  norm_num

theorem jsAdd_095_005 : jsAdd (roundDouble 0.95) (roundDouble 0.05) = roundDouble 1.00 := by
  unfold jsAdd
  rw [roundDouble_095, roundDouble_005, roundDouble_100,
    roundDouble_eq _ (-1) 9007199254740992 (by norm_num)
    (by norm_num [abs_of_pos]) (by norm_num [abs_of_pos]) (by norm_num) (by norm_num)]
  norm_num

theorem mixerChoose_weights (u : ℚ) (h1 : u < 1) :
    mixerChoose scenarioWeights 0 u = some
      (if u < roundDouble 0.60 then Scenario.browseProducts
       else if u < roundDouble 0.85 then Scenario.viewProductDetail
       else if u < roundDouble 0.95 then Scenario.authenticateUser
       else Scenario.adminOperations) := by
  have h100 : u < roundDouble 1.00 := by rw [roundDouble_100]; exact h1
  simp only [mixerChoose, scenarioWeights, jsAdd_zero_060, jsAdd_060_025, jsAdd_085_010,
    jsAdd_095_005]
  split_ifs <;> rfl

theorem find_cumulativeTable (u : ℚ) (h1 : u < 1) :
    (cumulativeTable.find? (fun p => decide (u < p.2))).map Prod.fst = some
      (if u < roundDouble 0.60 then Scenario.browseProducts
       else if u < roundDouble 0.85 then Scenario.viewProductDetail
       else if u < roundDouble 0.95 then Scenario.authenticateUser
       else Scenario.adminOperations) := by
  have h100 : u < roundDouble 1.00 := by rw [roundDouble_100]; exact h1
  simp only [cumulativeTable, List.find?]
  by_cases ha : u < roundDouble 0.60
  · simp [ha]
  · by_cases hb : u < roundDouble 0.85
    · simp [ha, hb]
    · by_cases hc : u < roundDouble 0.95
      · simp [ha, hb, hc]
      · simp [ha, hb, hc, h100]

theorem defaultFunction_eq (h : Host) (s : State) (productIds : List JsVal) :
    defaultFunction h s productIds = thenSleep h
      (runScenario
        (if h.random s.draws < roundDouble 0.60 then Scenario.browseProducts
         else if h.random s.draws < roundDouble 0.85 then Scenario.viewProductDetail
         else if h.random s.draws < roundDouble 0.95 then Scenario.authenticateUser
         else Scenario.adminOperations)
        h { s with draws := s.draws + 1 } productIds) := by
  unfold defaultFunction thenSleep
  simp only [mathRandom, emit]
  split_ifs <;> rfl

theorem defaultFunction_constHost (u : ℚ) (r : Response) (productIds : List JsVal) :
    defaultFunction (constHost u r) freshState productIds = thenSleep (constHost u r)
      (runScenario
        (if u < roundDouble 0.60 then Scenario.browseProducts
         else if u < roundDouble 0.85 then Scenario.viewProductDetail
         else if u < roundDouble 0.95 then Scenario.authenticateUser
         else Scenario.adminOperations)
        (constHost u r) { freshState with draws := 1 } productIds) :=
  defaultFunction_eq (constHost u r) freshState productIds

/-- C1: for a draw `u` below 1, one iteration of the default function is the
run of exactly one scenario function, on the state after the draw, followed by
the sleep (or by nothing when the scenario function throws). That function is
the one the Scenario Mixer's rule picks for the weights 0.60, 0.25, 0.10, 0.05,
which is the first entry of the cumulative table 0.60, 0.85, 0.95, 1.00 whose
probability exceeds `u`; the numbers are the doubles these literals denote and
the sums are sums of doubles. The draw 0.61 runs `viewProductDetail`, the draw
0.05 runs `browseProducts` and the draw 0.999 runs `adminOperations`. -/
theorem defaultFunction_runs_chosen_scenario (h : Host) (s : State) (productIds : List JsVal)
    (h1 : h.random s.draws < 1) :
    (∃ sc, mixerChoose scenarioWeights 0 (h.random s.draws) = some sc ∧
      (cumulativeTable.find? (fun p => decide (h.random s.draws < p.2))).map Prod.fst
        = some sc ∧
      defaultFunction h s productIds
        = thenSleep h (runScenario sc h { s with draws := s.draws + 1 } productIds)) ∧
    (∀ r, defaultFunction (constHost (roundDouble 0.61) r) freshState productIds
      = thenSleep (constHost (roundDouble 0.61) r)
          (viewProductDetail (constHost (roundDouble 0.61) r)
            { freshState with draws := 1 } productIds)) ∧
    (∀ r, defaultFunction (constHost (roundDouble 0.05) r) freshState productIds
      = thenSleep (constHost (roundDouble 0.05) r)
          (browseProducts (constHost (roundDouble 0.05) r) { freshState with draws := 1 })) ∧
    (∀ r, defaultFunction (constHost (roundDouble 0.999) r) freshState productIds
      = thenSleep (constHost (roundDouble 0.999) r)
          (adminOperations (constHost (roundDouble 0.999) r)
            { freshState with draws := 1 })) := by
  refine ⟨⟨_, mixerChoose_weights _ h1, find_cumulativeTable _ h1,
    defaultFunction_eq h s productIds⟩, ?_, ?_, ?_⟩
  · intro r
    have ha : ¬ (roundDouble 0.61 < roundDouble 0.60) := by
      rw [roundDouble_061, roundDouble_060]; norm_num
    have hb : roundDouble 0.61 < roundDouble 0.85 := by
      rw [roundDouble_061, roundDouble_085]; norm_num
    rw [defaultFunction_constHost, if_neg ha, if_pos hb]
    simp only [runScenario]
  · intro r
    have ha : roundDouble 0.05 < roundDouble 0.60 := by
      rw [roundDouble_005, roundDouble_060]; norm_num
    rw [defaultFunction_constHost, if_pos ha]
    simp only [runScenario]
  · intro r
    have ha : ¬ (roundDouble 0.999 < roundDouble 0.60) := by
      rw [roundDouble_0999, roundDouble_060]; norm_num
    have hb : ¬ (roundDouble 0.999 < roundDouble 0.85) := by
      rw [roundDouble_0999, roundDouble_085]; norm_num
    have hc : ¬ (roundDouble 0.999 < roundDouble 0.95) := by
      rw [roundDouble_0999, roundDouble_095]; norm_num
    rw [defaultFunction_constHost, if_neg ha, if_neg hb, if_neg hc]
    simp only [runScenario]

/-- Witness of C1: the draw is the double 0.6 itself, which is not below the
threshold `0.60` of the first branch, although it is below the decimal number
six tenths: the iteration runs `viewProductDetail`, here on a pool of two ids
and a response that is recorded as a success. -/
theorem defaultFunction_runs_chosen_scenario_witness :
    (constHost (roundDouble 0.60) pricedProduct).random freshState.draws < 1 ∧
    roundDouble 0.60 < 6 / 10 ∧
    mixerChoose scenarioWeights 0 (roundDouble 0.60) = some .viewProductDetail ∧
    defaultFunction (constHost (roundDouble 0.60) pricedProduct) freshState
        [.num (.fin 1), .num (.fin 2)]
      = thenSleep (constHost (roundDouble 0.60) pricedProduct)
          (viewProductDetail (constHost (roundDouble 0.60) pricedProduct)
            { freshState with draws := 1 } [.num (.fin 1), .num (.fin 2)]) ∧
    rateObservations .errorRate
      (defaultFunction (constHost (roundDouble 0.60) pricedProduct) freshState
        [.num (.fin 1), .num (.fin 2)]).2.trace = [false] ∧
    requests
      (defaultFunction (constHost (roundDouble 0.60) pricedProduct) freshState
        [.num (.fin 1), .num (.fin 2)]).2.trace
      = [.productDetail ((pick [JsVal.num (.fin 1), .num (.fin 2)]
          (roundDouble 0.60)).getD .undefined)] := by
  have h1 : (constHost (roundDouble 0.60) pricedProduct).random freshState.draws < 1 := by
    simp only [constHost]
    rw [roundDouble_060]; norm_num
  have hlt : roundDouble 0.60 < 6 / 10 := by rw [roundDouble_060]; norm_num
  have ha : ¬ (roundDouble 0.60 < roundDouble 0.60) := lt_irrefl _
  have hb : roundDouble 0.60 < roundDouble 0.85 := by
    rw [roundDouble_060, roundDouble_085]; norm_num
  obtain ⟨sc, hsc, _, hrun⟩ := (defaultFunction_runs_chosen_scenario
    (constHost (roundDouble 0.60) pricedProduct) freshState
    [.num (.fin 1), .num (.fin 2)] h1).1
  have hmix : mixerChoose scenarioWeights 0 (roundDouble 0.60) = some .viewProductDetail := by
    rw [mixerChoose_weights _ (by rw [roundDouble_060]; norm_num), if_neg ha, if_pos hb]
  have hsc' : sc = .viewProductDetail := by
    have : (constHost (roundDouble 0.60) pricedProduct).random freshState.draws
        = roundDouble 0.60 := rfl
    rw [this, hmix] at hsc
    exact (Option.some.inj hsc).symm
  subst hsc'
  have hrun' : defaultFunction (constHost (roundDouble 0.60) pricedProduct) freshState
        [.num (.fin 1), .num (.fin 2)]
      = thenSleep (constHost (roundDouble 0.60) pricedProduct)
          (viewProductDetail (constHost (roundDouble 0.60) pricedProduct)
            { freshState with draws := 1 } [.num (.fin 1), .num (.fin 2)]) := hrun
  refine ⟨h1, hlt, hmix, hrun', ?_, ?_⟩
  · rw [hrun', viewProductDetail_run _ _ _ (by simp), truthy_detailHasProductData]
    simp [thenSleep, rateObservations, freshState, constHost, pricedProduct,
      hasTruthyRequiredFields, readProp, List.lookup, truthy, List.filterMap_append]
  · rw [hrun', viewProductDetail_run _ _ _ (by simp)]
    simp [thenSleep, requests, freshState, constHost, List.filterMap_append]

end LoadTest
